import Mathlib

/-!
Shallow embedding of the searchspot talent-search service
(`src/src/resources/talent.rs`, `src/src/resources/score.rs`,
`src/src/terms.rs`, `src/src/macros.rs`, `src/src/server.rs`)
together with the parts of the query planner that the repository only
documents and tests (`tests/smoke.rs`), modelled from the specification.

Every definition in the `Searchspot` namespace mirrors one Rust item of
the source tree; definitions whose doc comment starts with
`Modelled from the spec:` stand in for program code that is missing from
the source tree (only its integration tests and callee declarations are
present) and follow the specification text instead.
-/

namespace Searchspot

/-- A JSON-like scalar value, as used by `rs_es` term queries
(`Query::build_term` accepts strings, booleans and integers). -/
inductive JVal
  | s (v : String)
  | b (v : Bool)
  | i (v : Int)
  deriving DecidableEq, Repr

/-- `params::Value`: the untyped query-string/form parameter values of the
`params` crate, restricted to the constructors the planner can meet. -/
inductive PValue
  | str (v : String)
  | u64 (v : Nat)
  | i64 (v : Int)
  | boolean (v : Bool)
  | null
  | arr (vs : List PValue)

/-- `params::Map` (`BTreeMap<String, Value>`), embedded as an association
list with left-most binding winning on lookup. -/
abbrev ParamsMap := List (String × PValue)

/-- Lookup of a parameter (`Map::get`). -/
def ParamsMap.get (m : ParamsMap) (k : String) : Option PValue :=
  (List.find? (fun p => p.1 == k) m).map (·.2)

/-- `str::contains(char)`, over the character list of the string. -/
def strContains (s : String) (c : Char) : Bool :=
  s.data.contains c

/-- The numeric value of a list of ASCII digits. -/
def digitsToNat (cs : List Char) : Nat :=
  cs.foldl (fun acc c => acc * 10 + (c.toNat - 48)) 0

/-- `str::parse::<u64>()`: an optional leading `+` followed by at least one
ASCII digit.  (Overflow of 64-bit values is not modelled; no claim in scope
involves 20-digit numbers.) -/
def rustParseU64 (s : String) : Option Nat :=
  let cs :=
    match s.data with
    | '+' :: rest => rest
    | cs => cs
  if cs ≠ [] ∧ cs.all Char.isDigit then some (digitsToNat cs) else none

/-- `str::parse::<i32>()`: an optional sign followed by at least one ASCII
digit, in the 32-bit signed range. -/
def rustParseI32 (s : String) : Option Int :=
  let sign : Int :=
    match s.data with
    | '-' :: _ => -1
    | _ => 1
  let cs :=
    match s.data with
    | '+' :: rest => rest
    | '-' :: rest => rest
    | cs => cs
  if cs ≠ [] ∧ cs.all Char.isDigit then
    let n : Int := sign * (digitsToNat cs : Int)
    if -2147483648 ≤ n ∧ n ≤ 2147483647 then some n else none
  else none

/-- `String::from_value` of the `params` crate. -/
def stringFromValue : PValue → Option String
  | .str v => some v
  | .u64 v => some (toString v)
  | .i64 v => some (toString v)
  | .boolean v => some (toString v)
  | .null => some "null"
  | .arr _ => none

/-- `i32::from_value` of the `params` crate: strings are parsed, integral
values are range-checked, everything else is rejected. -/
def i32FromValue : PValue → Option Int
  | .str v => rustParseI32 v
  | .u64 v => if v ≤ 2147483647 then some (v : Int) else none
  | .i64 v => if -2147483648 ≤ v ∧ v ≤ 2147483647 then some v else none
  | _ => none

/-- `u64::from_value` of the `params` crate (strings parsed, unsigned
integers passed through, negatives rejected). -/
def u64FromValue : PValue → Option Nat
  | .str v => rustParseU64 v
  | .u64 v => some v
  | .i64 v => if 0 ≤ v then some v.toNat else none
  | _ => none

/-- `Vec::<T>::from_value`: only arrays convert, and every element must
convert. -/
def vecFromValue (f : PValue → Option α) : PValue → Option (List α)
  | .arr vs => vs.mapM f
  | _ => none

/-- The `vec_from_params!` macro (`src/src/macros.rs`) at type
`Vec<String>`: absent keys and failed conversions degrade to `[]`. -/
def vec_from_params (m : ParamsMap) (k : String) : List String :=
  match m.get k with
  | some v => (vecFromValue stringFromValue v).getD []
  | none => []

/-- The `vec_from_params!` macro at type `Vec<i32>`. -/
def i32_list_from_params (m : ParamsMap) (k : String) : List Int :=
  match m.get k with
  | some v => (vecFromValue i32FromValue v).getD []
  | none => []

/-- The `i32_vec_from_params!` macro (`type_vec_from_params!` with `i32`):
a single scalar coerced to `i32` and wrapped in a one-element vector;
`[]` on failure or absence. -/
def i32_vec_from_params (m : ParamsMap) (k : String) : List Int :=
  match m.get k with
  | some v => ((i32FromValue v).map (fun i => [i])).getD []
  | none => []

/-- `rs_es` queries, restricted to the constructors searchspot builds.
`range` carries the optional `lte`/`gte` bounds and `format`;
`rangeLeNat` is the numeric `lte` range used by the (spec-modelled) salary
filter; `nested` is the nested-document query of the spec-modelled
filters. -/
inductive Query
  | term (field : String) (value : JVal)
  | terms (field : String) (values : List JVal)
  | range (field : String) (lte : Option String) (gte : Option String)
      (format : Option String)
  | rangeLeNat (field : String) (lte : Nat)
  | queryString (query : String) (fields : List String)
  | nested (path : String) (q : Query)
  | boolQ (must : List Query) (should : List Query) (mustNot : List Query)

/-- The `must` compartment of a boolean query (and `[]` for any other
query shape). -/
def Query.mustOf : Query → List Query
  | .boolQ m _ _ => m
  | _ => []

/-- The `must_not` compartment of a boolean query. -/
def Query.mustNotOf : Query → List Query
  | .boolQ _ _ mn => mn
  | _ => []

/-- `<Query as VectorOfTerms<String>>::build_terms` (`src/src/terms.rs`):
`[]` for no values, otherwise a single `terms` query. -/
def build_terms_str (key : String) (values : List String) : List Query :=
  if values.isEmpty then [] else [.terms key (values.map .s)]

/-- `<Query as VectorOfTerms<i32>>::build_terms` (`src/src/terms.rs`). -/
def build_terms_i32 (key : String) (values : List Int) : List Query :=
  if values.isEmpty then [] else [.terms key (values.map .i)]

/-- `SalaryExpectations` (`src/src/resources/talent.rs`); the two optional
`u64` amounts become optional naturals. -/
structure SalaryExpectations where
  minimum : Option Nat
  maximum : Option Nat
  currency : String
  city : String
  deriving DecidableEq, Repr

/-- The indexed `Talent` document (`src/src/resources/talent.rs`). -/
structure Talent where
  id : Nat
  accepted : Bool
  desired_work_roles : List String
  desired_work_roles_experience : List String
  professional_experience : String
  work_locations : List String
  current_location : String
  work_authorization : String
  skills : List String
  summary : String
  headline : String
  contacted_company_ids : List Nat
  batch_starts_at : String
  batch_ends_at : String
  added_to_batch_at : String
  weight : Int
  blocked_companies : List Nat
  work_experiences : List String
  avatar_url : String
  salary_expectations : List SalaryExpectations
  latest_position : String
  languages : List String
  educations : List String
  deriving DecidableEq, Repr

/-- `RolesExperience` (`src/src/resources/talent.rs`). -/
structure RolesExperience where
  role : String
  experience : String
  deriving DecidableEq, Repr

/-- `RolesExperience::new`: a missing experience entry becomes the empty
string. -/
def RolesExperience.new (role : String) (experience : Option String) :
    RolesExperience :=
  { role := role, experience := experience.getD "" }

/-- `FoundTalent` (`src/src/resources/talent.rs`): the projection of a
talent that search results expose. -/
structure FoundTalent where
  id : Nat
  headline : String
  avatar_url : String
  work_locations : List String
  current_location : String
  salary_expectations : List SalaryExpectations
  roles_experiences : List RolesExperience
  latest_position : String
  batch_starts_at : String
  deriving DecidableEq, Repr

/-- `impl From<Box<Talent>> for FoundTalent`: pair each desired work role
with the experience entry of the same index (`Vec::get` + substitution of
the empty string when absent). -/
def FoundTalent.fromTalent (talent : Talent) : FoundTalent :=
  { id := talent.id
    headline := talent.headline
    avatar_url := talent.avatar_url
    work_locations := talent.work_locations
    current_location := talent.current_location
    salary_expectations := talent.salary_expectations
    roles_experiences :=
      talent.desired_work_roles.enum.map
        (fun p => RolesExperience.new p.2
          (talent.desired_work_roles_experience.get? p.1))
    latest_position := talent.latest_position
    batch_starts_at := talent.batch_starts_at }

namespace Talent

/-- `Talent::visibility_filters` (`src/src/resources/talent.rs:143`).
With a date filter the visibility rule is `accepted == true AND
batch_starts_at == epoch`; otherwise it is `accepted == true AND
batch_starts_at ≤ epoch AND batch_ends_at ≥ epoch`, both ranges in
`dateOptionalTime` format.  A non-empty `presented_talents` wraps the rule
in a `should` (OR) with a `terms` query on `ids`. -/
def visibility_filters (epoch : String) (presented_talents : List Int)
    (date_filter_present : Bool) : List Query :=
  let visibility_rules : Query :=
    if date_filter_present then
      .boolQ
        [.term "accepted" (.b true),
         .term "batch_starts_at" (.s epoch)]
        [] []
    else
      .boolQ
        [.term "accepted" (.b true),
         .range "batch_starts_at" (some epoch) none (some "dateOptionalTime"),
         .range "batch_ends_at" none (some epoch) (some "dateOptionalTime")]
        [] []
  if ¬ presented_talents.isEmpty then
    let presented_talents_filters : Query :=
      .boolQ (List.flatten [build_terms_i32 "ids" presented_talents]) [] []
    [.boolQ [] [visibility_rules, presented_talents_filters] []]
  else
    [visibility_rules]

/-- The six full-text fields of `Talent::full_text_search`, with `.raw`
appended to each when the keyword string contains a double quote. -/
def fullTextFields (raw_query : Bool) : List String :=
  ["skills", "summary", "headline", "desired_work_roles",
   "work_experiences", "educations"].map
    (fun field => field ++ if raw_query then ".raw" else "")

/-- `Talent::full_text_search` (`src/src/resources/talent.rs:268`): `none`
unless `keywords` is a non-empty string; otherwise a query-string query
over the six fields, on the `.raw` variants iff the keywords contain
`"`. -/
def full_text_search (params : ParamsMap) : Option Query :=
  match params.get "keywords" with
  | some (.str keywords) =>
    if keywords.isEmpty then none
    else
      let raw_query := strContains keywords '\"'
      some (.queryString keywords (fullTextFields raw_query))
  | _ => none

/-- `Talent::search_filters` (`src/src/resources/talent.rs:204`). -/
def search_filters (params : ParamsMap) (epoch : String) : Query :=
  let company_id := i32_vec_from_params params "company_id"
  let date_filter_present := (params.get "epoch").isSome
  .boolQ
    (List.flatten
      [(match full_text_search params with
        | some keywords => [keywords]
        | none => []),
       [.boolQ
          ((vec_from_params params "languages").map
            (fun language => .term "languages" (.s language)))
          [] []],
       build_terms_str "desired_work_roles.raw"
         (vec_from_params params "desired_work_roles"),
       build_terms_str "professional_experience"
         (vec_from_params params "professional_experience"),
       build_terms_str "work_authorization"
         (vec_from_params params "work_authorization"),
       build_terms_str "work_locations"
         (vec_from_params params "work_locations"),
       build_terms_str "current_location"
         (vec_from_params params "current_location"),
       build_terms_i32 "id" (i32_list_from_params params "bookmarked_talents"),
       visibility_filters epoch
         (i32_vec_from_params params "presented_talents")
         date_filter_present])
    []
    (List.flatten
      [build_terms_i32 "contacted_company_ids" company_id,
       build_terms_i32 "blocked_companies" company_id,
       build_terms_i32 "id" (i32_list_from_params params "contacted_talents"),
       build_terms_i32 "id" (i32_list_from_params params "ignored_talents")])

end Talent

/-- One field of an `rs_es` `Sort` with its order and the optional
`unmapped_type` fallback. -/
structure SortField where
  field : String
  order : String
  unmappedType : Option String
  deriving DecidableEq, Repr

/-- `Talent::sorting_criteria` (`src/src/resources/talent.rs:303`). -/
def sorting_criteria : List SortField :=
  [{ field := "batch_starts_at", order := "desc", unmappedType := some "date" },
   { field := "weight", order := "desc", unmappedType := some "integer" },
   { field := "added_to_batch_at", order := "desc",
     unmappedType := some "date" }]

/-- One highlight `Setting` of `Talent::search`: plain type, term vector
with positions and offsets, fragment size 1. -/
structure HighlightSetting where
  settingType : String
  termVector : String
  fragmentSize : Nat
  deriving DecidableEq, Repr

/-- The highlight object `Talent::search` sends: HTML encoder, empty
pre/post tags, one setting per highlighted field. -/
structure Highlight where
  encoder : String
  preTags : List String
  postTags : List String
  settings : List (String × HighlightSetting)
  deriving DecidableEq, Repr

/-- The search request a `Talent::search` call hands to the engine client:
indexes, query, optional highlight, paging, optional minimum score, score
tracking and optional sort. -/
structure EsRequest where
  indexes : List String
  query : Query
  highlight : Option Highlight
  fromOffset : Nat
  size : Nat
  minScore : Option ℚ
  trackScores : Bool
  sort : Option (List SortField)

namespace Talent

/-- The highlight setting constant of `Talent::search`. -/
def highlightSetting : HighlightSetting :=
  { settingType := "plain", termVector := "with_positions_offsets",
    fragmentSize := 1 }

/-- The highlight `Talent::search` builds for a keyword search: the six
full-text fields, on their `.raw` variants iff the keywords contain a
double quote. -/
def buildHighlight (params : ParamsMap) : Highlight :=
  let raw :=
    match params.get "keywords" with
    | some (.str keywords) => strContains keywords '\"'
    | _ => false
  { encoder := "html", preTags := [""], postTags := [""],
    settings := (fullTextFields raw).map (fun f => (f, highlightSetting)) }

/-- The `keywords_present` test of `Talent::search`
(`src/src/resources/talent.rs:342`): true exactly for a non-empty string
value. -/
def keywordsPresent (params : ParamsMap) : Bool :=
  match params.get "keywords" with
  | some (.str keywords) => ¬ keywords.isEmpty
  | some _ => false
  | none => false

/-- The request-building part of `Talent::search`
(`src/src/resources/talent.rs:331`): extraction of `epoch`, `index`,
`keywords` presence, `offset` and `per_page`, then either the
min-score/highlight branch (non-empty keywords) or the sorted branch.
`now` stands for `Utc::now().to_rfc3339()`. -/
def searchRequest (params : ParamsMap) (default_index : String)
    (now : String) : EsRequest :=
  let epoch : String :=
    match params.get "epoch" with
    | some (.str epoch) => epoch
    | _ => now
  let index : List String :=
    match params.get "index" with
    | some (.str index) => [index]
    | _ => [default_index]
  let keywords_present : Bool := keywordsPresent params
  let offset : Nat :=
    match params.get "offset" with
    | some (.str offset) => (rustParseU64 offset).getD 0
    | some (.u64 offset) => offset
    | _ => 0
  let per_page : Nat :=
    match params.get "per_page" with
    | some (.str per_page) => (rustParseU64 per_page).getD 10
    | some (.u64 per_page) => per_page
    | _ => 10
  if keywords_present then
    { indexes := index
      query := search_filters params epoch
      highlight := some (buildHighlight params)
      fromOffset := offset
      size := per_page
      minScore := some (56 / 100 : ℚ)
      trackScores := true
      sort := none }
  else
    { indexes := index
      query := search_filters params epoch
      highlight := none
      fromOffset := offset
      size := per_page
      minScore := none
      trackScores := false
      sort := some sorting_criteria }

end Talent

/-- A single engine hit for a talent search: the source document and the
optional highlight fragments (field name to fragments). -/
structure TalentHit where
  source : Talent
  highlight : Option (List (String × List String))
  deriving DecidableEq, Repr

/-- The `hits` part of an engine search response. -/
structure EsHits where
  total : Nat
  hits : List TalentHit
  deriving DecidableEq, Repr

/-- `SearchResult` (`src/src/resources/talent.rs:29`): one result, the
projected talent plus its highlight. -/
structure SearchResult where
  talent : FoundTalent
  highlight : Option (List (String × List String))
  deriving DecidableEq, Repr

/-- `impl From<SearchHitsHitsResult<Talent>> for SearchResult`. -/
def SearchResult.fromHit (hit : TalentHit) : SearchResult :=
  { talent := FoundTalent.fromTalent hit.source, highlight := hit.highlight }

/-- `SearchResults` (`src/src/resources/talent.rs:22`). -/
structure SearchResults where
  total : Nat
  talents : List SearchResult
  deriving DecidableEq, Repr

namespace Talent

/-- The result-handling tail of `Talent::search`
(`src/src/resources/talent.rs:422`): an engine error is logged and turned
into the empty `SearchResults`; a zero total short-circuits; otherwise
every hit is converted. -/
def processResult (result : Except String EsHits) : SearchResults :=
  match result with
  | .ok result =>
    if result.total = 0 then { total := 0, talents := [] }
    else
      { total := result.total
        talents := result.hits.map SearchResult.fromHit }
  | .error _ => { total := 0, talents := [] }

end Talent

/-- An HTTP response of the searchspot server, with the JSON body kept as
the encoded value (`serde_json::to_string` is treated as a faithful
framing of the value). -/
structure HttpResponse where
  status : Nat
  body : Option SearchResults
  deriving DecidableEq, Repr

/-- `SearchableHandler::handle` (`src/src/server.rs:119`): an unauthorized
request gets 401 with no body; otherwise the resource search result —
here the already-processed engine outcome — is encoded with status 200. -/
def searchableHandle (authorized : Bool)
    (engineResult : Except String EsHits) : HttpResponse :=
  if ¬ authorized then { status := 401, body := none }
  else { status := 200, body := some (Talent.processResult engineResult) }

/-- `Score` (`src/src/resources/score.rs:25`); the `f32` score is embedded
as a rational. -/
structure Score where
  request_id : String
  person_id : Option String
  company_id : Option String
  position_id : Option String
  job_id : Nat
  talent_id : Nat
  score : ℚ
  deriving DecidableEq, Repr

/-- `score::SearchBuilder` (`src/src/resources/score.rs:36`). -/
structure ScoreSearchBuilder where
  job_id : Option Nat
  talent_id : Option Nat
  deriving DecidableEq, Repr

/-- `score::SearchResults` (`src/src/resources/score.rs:18`). -/
structure ScoreSearchResults where
  total : Nat
  scores : List Score
  deriving DecidableEq, Repr

/-- The engine index state relevant to talent deletion: the documents of
type `talent` and of type `score` currently searchable. -/
structure EsState where
  talentDocs : List Talent
  scoreDocs : List Score
  deriving DecidableEq, Repr

/-- The engine semantics of `SearchBuilder::to_query`
(`src/src/resources/score.rs:60`): a boolean `must` of the equality terms
for whichever of `job_id` and `talent_id` are set. -/
def scoreMatches (b : ScoreSearchBuilder) (s : Score) : Bool :=
  (match b.job_id with
   | some job_id => s.job_id == job_id
   | none => true) &&
  (match b.talent_id with
   | some talent_id => s.talent_id == talent_id
   | none => true)

/-- `Score::search` (`src/src/resources/score.rs:89`) against the engine
state: the scores matching the builder's terms, with their count as
`total`. -/
def Score.search (st : EsState) (b : ScoreSearchBuilder) :
    ScoreSearchResults :=
  let hits := st.scoreDocs.filter (scoreMatches b)
  { total := hits.length, scores := hits }

/-- `Talent::delete` (`src/src/resources/talent.rs:443`):
`es.delete(index, "talent", id)` removes the talent document whose
bulk-index id (`Talent::index` uses `r.id.to_string()`) equals `id` —
and touches nothing else.  In particular the score documents are left in
place. -/
def Talent.delete (st : EsState) (id : String) : EsState :=
  { st with talentDocs := st.talentDocs.filter (fun t => toString t.id != id) }

/-!
The newer planner revision — desired-role experience ladder, salary
filter and the `features[]` toggles — is exercised by the repository's
integration tests (`tests/smoke.rs`) but its implementation is not in the
source tree.  The definitions below are modelled from the specification
(§4.D.2) and carry `Modelled from the spec:` doc comments.
-/

/-- Modelled from the spec: the canonical experience bands,
`0..1 | 1..2 | 2..4 | 4..6 | 6..8 | 8+`. -/
def bands : List String :=
  ["0..1", "1..2", "2..4", "4..6", "6..8", "8+"]

/-- Modelled from the spec: the fixed ladder mapping a minimum number of
years to the set of bands "at least `min` years"
(`0,1 → all`; `2 → drop 0..1`; `3,4 → from 2..4`; `5,6 → from 4..6`;
`7,8 → from 6..8`; `9+ → 8+`). -/
def atLeastBands (minYears : Nat) : List String :=
  if minYears ≤ 1 then bands
  else if minYears = 2 then bands.drop 1
  else if minYears ≤ 4 then bands.drop 2
  else if minYears ≤ 6 then bands.drop 3
  else if minYears ≤ 8 then bands.drop 4
  else bands.drop 5

/-- `str::split(':')` as a list of fields, over the character list. -/
def splitOnColon (s : String) : List String :=
  (s.data.foldr
    (fun ch acc =>
      match acc with
      | [] => [[ch]]
      | cur :: rest =>
        if ch = ':' then [] :: (cur :: rest) else (ch :: cur) :: rest)
    [[]]).map String.mk

/-- Modelled from the spec: parsing of one `desired_work_roles[]` item of
the form `role[:min[:max]]` (the missing planner's role-item parser, known
only through `tests/smoke.rs` and the spec). -/
def parseRoleItem (item : String) : String × Option Nat × Option Nat :=
  match splitOnColon item with
  | [] => (item, none, none)
  | [role] => (role, none, none)
  | [role, minimum] => (role, rustParseU64 minimum, none)
  | role :: minimum :: maximum :: _ =>
    (role, rustParseU64 minimum, rustParseU64 maximum)

/-- Modelled from the spec: the clause the missing planner emits for one
`desired_work_roles[]` item.  With no minimum: a plain term on
`desired_work_roles.raw`.  With a minimum: one nested
`(role == R) AND (experience == band)` clause per ladder band, ORred in a
boolean `should`. -/
def desiredRoleClause (item : String) : Query :=
  match parseRoleItem item with
  | (role, none, _) => .term "desired_work_roles.raw" (.s role)
  | (role, some minYears, _) =>
    .boolQ []
      ((atLeastBands minYears).map (fun band =>
        .nested "desired_roles"
          (.boolQ
            [.term "desired_roles.role" (.s role),
             .term "desired_roles.experience" (.s band)]
            [] [])))
      []

/-- Modelled from the spec: the salary filter of the missing planner.
When `maximum_salary` parses as a non-negative integer: with no
`work_locations`, one nested `salary_expectations.minimum ≤ maximum_salary`
query; with locations, one nested
`(minimum ≤ maximum_salary) AND (city == location)` per location, ORred. -/
def salaryFilters (params : ParamsMap) : List Query :=
  match (params.get "maximum_salary").bind u64FromValue with
  | some maximum_salary =>
    let locations := vec_from_params params "work_locations"
    if locations.isEmpty then
      [.nested "salary_expectations"
        (.rangeLeNat "salary_expectations.minimum" maximum_salary)]
    else
      [.boolQ []
        (locations.map (fun location =>
          .nested "salary_expectations"
            (.boolQ
              [.rangeLeNat "salary_expectations.minimum" maximum_salary,
               .term "salary_expectations.city" (.s location)]
              [] [])))
        []]
  | none => []

/-- The four compartments of the boolean tree the spec-modelled planner
assembles (§4.D.2): `must` (AND), `should` (OR), `filter` (non-scoring)
and `must_not`. -/
structure BoolTree where
  must : List Query
  should : List Query
  filter : List Query
  mustNot : List Query

/-- Modelled from the spec: the non-keyword `must` clauses of the missing
planner — the per-language equality terms, the OR-term rows for the
scalar filters, and the visibility sub-filter (these parts coincide with
`Talent::search_filters` of the source tree). -/
def plannerMustRest (params : ParamsMap) (epoch : String) : List Query :=
  List.flatten
    [[Query.boolQ
        ((vec_from_params params "languages").map
          (fun language => .term "languages" (.s language)))
        [] []],
     build_terms_str "professional_experience"
       (vec_from_params params "professional_experience"),
     build_terms_str "work_authorization"
       (vec_from_params params "work_authorization"),
     build_terms_str "work_locations"
       (vec_from_params params "work_locations"),
     build_terms_str "current_location"
       (vec_from_params params "current_location"),
     build_terms_i32 "id" (i32_list_from_params params "bookmarked_talents"),
     Talent.visibility_filters epoch
       (i32_vec_from_params params "presented_talents")
       ((params.get "epoch").isSome)]

/-- Modelled from the spec: the desired-role sub-clause group of the
missing planner.  Items with different roles are ORred into the same
sub-clause group (one boolean `should` over the per-item clauses), which
lives under the non-scoring `filter` compartment; no items, no group. -/
def desiredRoleGroup (params : ParamsMap) : List Query :=
  let items := vec_from_params params "desired_work_roles"
  if items.isEmpty then []
  else [.boolQ [] (items.map desiredRoleClause) []]

/-- Modelled from the spec: the missing planner's boolean tree.  The
keyword clause lands in `must` by default and in `should` when the
`features[]` list contains `keywords_should`; the desired-role OR group
and the salary clauses land in the non-scoring `filter` compartment; the
exclusions land in `must_not`. -/
def plannerTree (params : ParamsMap) (epoch : String) : BoolTree :=
  let features := vec_from_params params "features"
  let keywordClauses : List Query :=
    match Talent.full_text_search params with
    | some keywords => [keywords]
    | none => []
  let keywordsShould := features.contains "keywords_should"
  let company_id := i32_vec_from_params params "company_id"
  { must :=
      (if keywordsShould then [] else keywordClauses) ++
        plannerMustRest params epoch
    should := if keywordsShould then keywordClauses else []
    filter := desiredRoleGroup params ++ salaryFilters params
    mustNot :=
      List.flatten
        [build_terms_i32 "contacted_company_ids" company_id,
         build_terms_i32 "blocked_companies" company_id,
         build_terms_i32 "id" (i32_list_from_params params "contacted_talents"),
         build_terms_i32 "id" (i32_list_from_params params "ignored_talents")] }

/-! ## Theorems for the claims -/

/-- C3: `Talent::full_text_search` returns no clause exactly when the
`keywords` parameter is absent, not a string, or the empty string;
otherwise it returns a query-string query over exactly the six fields
`skills`, `summary`, `headline`, `desired_work_roles`,
`work_experiences`, `educations`, with `.raw` appended to every field
name if and only if the keyword string contains a double-quote
character. -/
theorem claim_C3_full_text_search (params : ParamsMap) :
    (Talent.full_text_search params = none ↔
      ∀ keywords, params.get "keywords" = some (.str keywords) →
        keywords = "") ∧
    (∀ keywords, params.get "keywords" = some (.str keywords) →
      keywords ≠ "" →
      Talent.full_text_search params =
        some (.queryString keywords
          (if strContains keywords '\"' then
            ["skills.raw", "summary.raw", "headline.raw",
             "desired_work_roles.raw", "work_experiences.raw",
             "educations.raw"]
          else
            ["skills", "summary", "headline", "desired_work_roles",
             "work_experiences", "educations"]))) := by
  constructor
  · unfold Talent.full_text_search
    cases hk : params.get "keywords" with
    | none => simp
    | some v =>
      cases v with
      | str s => simp [String.isEmpty_iff]
      | u64 v => simp
      | i64 v => simp
      | boolean v => simp
      | null => simp
      | arr vs => simp
  · intro keywords hk hne
    have hie : keywords.isEmpty = false := by
      rw [Bool.eq_false_iff]
      intro hcon
      exact hne ((String.isEmpty_iff keywords).mp hcon)
    have hfields : ∀ b : Bool, Talent.fullTextFields b =
        if b then
          ["skills.raw", "summary.raw", "headline.raw",
           "desired_work_roles.raw", "work_experiences.raw",
           "educations.raw"]
        else
          ["skills", "summary", "headline", "desired_work_roles",
           "work_experiences", "educations"] := by
      intro b
      cases b <;> rfl
    unfold Talent.full_text_search
    rw [hk]
    cases hq : strContains keywords '\"' <;> simp [hie, hq, hfields]

/-- C3 witness: at the concrete map `{keywords ↦ "\"Unity\""}` the result
is the query-string query over the `.raw` variants. -/
theorem claim_C3_witness :
    Talent.full_text_search [("keywords", PValue.str "\"Unity\"")] =
      some (.queryString "\"Unity\""
        ["skills.raw", "summary.raw", "headline.raw",
         "desired_work_roles.raw", "work_experiences.raw",
         "educations.raw"]) := by
  have h :=
    (claim_C3_full_text_search [("keywords", PValue.str "\"Unity\"")]).2
      "\"Unity\"" rfl (by decide)
  simpa using h

/-- C8: an engine error inside `Talent::search` is converted into
`SearchResults{total: 0, talents: []}` rather than propagated or turned
into a panic, and the search HTTP handler then encodes that value with
status 200. -/
theorem claim_C8_engine_error_empty_200 (err : String) :
    Talent.processResult (.error err) = { total := 0, talents := [] } ∧
    searchableHandle true (.error err) =
      { status := 200, body := some { total := 0, talents := [] } } :=
  ⟨rfl, rfl⟩

/-- The engine size of a `Talent::search` request is the extracted
`per_page` value, in both the keyword and the sorted branch. -/
theorem searchRequest_size (params : ParamsMap) (default_index now : String) :
    (Talent.searchRequest params default_index now).size =
      match params.get "per_page" with
      | some (.str per_page) => (rustParseU64 per_page).getD 10
      | some (.u64 per_page) => per_page
      | _ => 10 := by
  unfold Talent.searchRequest
  cases h : Talent.keywordsPresent params <;> simp [h]

/-- C9 counterexample: with `per_page = "0"` (or the integer `0`) the
engine query is issued with size 0, not the default page size 10. -/
theorem claim_C9_counterexample :
    (Talent.searchRequest [("per_page", PValue.str "0")] "talents" "now").size
        = 0 ∧
    (Talent.searchRequest [("per_page", PValue.u64 0)] "talents" "now").size
        = 0 ∧
    (0 : Nat) ≠ 10 :=
  ⟨rfl, rfl, by decide⟩

/-- C9 (amended): a `per_page` of `0` — integer or string — is used as-is,
so the engine query's size is 0; the default page size 10 applies only
when `per_page` is absent (or a non-numeric value). -/
theorem claim_C9_amended (params : ParamsMap) (default_index now : String) :
    ((params.get "per_page" = some (.str "0") ∨
        params.get "per_page" = some (.u64 0)) →
      (Talent.searchRequest params default_index now).size = 0) ∧
    (params.get "per_page" = none →
      (Talent.searchRequest params default_index now).size = 10) := by
  constructor
  · intro h
    rw [searchRequest_size]
    rcases h with h | h <;> rw [h]
    rfl
  · intro h
    rw [searchRequest_size, h]

/-- C9 witness: the amended statement at the concrete maps
`{per_page ↦ "0"}` and `{}`. -/
theorem claim_C9_amended_witness :
    (Talent.searchRequest [("per_page", PValue.str "0")] "talents" "now").size
        = 0 ∧
    (Talent.searchRequest ([] : ParamsMap) "talents" "now").size = 10 :=
  ⟨(claim_C9_amended [("per_page", PValue.str "0")] "talents" "now").1
      (Or.inl rfl),
   (claim_C9_amended ([] : ParamsMap) "talents" "now").2 rfl⟩

/-- C10: converting a `Talent` to a `FoundTalent` produces one
`roles_experiences` element per desired work role, in order, pairing the
role at index `i` with the experience entry at index `i` and substituting
the empty string when the experience array is shorter; surplus experience
entries produce no element. -/
theorem claim_C10_roles_experiences (t : Talent) :
    (FoundTalent.fromTalent t).roles_experiences.length =
      t.desired_work_roles.length ∧
    ∀ i, (h : i < t.desired_work_roles.length) →
      (FoundTalent.fromTalent t).roles_experiences.get? i =
        some { role := t.desired_work_roles.get ⟨i, h⟩,
               experience :=
                 if h2 : i < t.desired_work_roles_experience.length then
                   t.desired_work_roles_experience.get ⟨i, h2⟩
                 else "" } := by
  constructor
  · simp [FoundTalent.fromTalent]
  · intro i h
    simp only [FoundTalent.fromTalent, List.get?_eq_getElem?,
      List.getElem?_map, List.getElem?_enum, List.get?_eq_get h,
      Option.map_some, RolesExperience.new]
    by_cases h2 : i < t.desired_work_roles_experience.length
    · simp [h2, List.get?_eq_get h2]
    · simp [h2, List.getElem?_eq_none (Nat.le_of_not_lt h2)]

/-- C10 witness: a talent with two roles and one experience entry pairs
the second role with the empty string. -/
theorem claim_C10_witness :
    (FoundTalent.fromTalent
      { id := 9, accepted := true, desired_work_roles := ["Fullstack", "DevOps"],
        desired_work_roles_experience := ["2..3"],
        professional_experience := "1..2", work_locations := [],
        current_location := "", work_authorization := "yes", skills := [],
        summary := "", headline := "", contacted_company_ids := [],
        batch_starts_at := "", batch_ends_at := "", added_to_batch_at := "",
        weight := 0, blocked_companies := [], work_experiences := [],
        avatar_url := "", salary_expectations := [], latest_position := "",
        languages := [], educations := [] }).roles_experiences.get? 1 =
      some { role := "DevOps", experience := "" } := by
  have h :=
    (claim_C10_roles_experiences
      { id := 9, accepted := true, desired_work_roles := ["Fullstack", "DevOps"],
        desired_work_roles_experience := ["2..3"],
        professional_experience := "1..2", work_locations := [],
        current_location := "", work_authorization := "yes", skills := [],
        summary := "", headline := "", contacted_company_ids := [],
        batch_starts_at := "", batch_ends_at := "", added_to_batch_at := "",
        weight := 0, blocked_companies := [], work_experiences := [],
        avatar_url := "", salary_expectations := [], latest_position := "",
        languages := [], educations := [] }).2 1 (by decide)
  simpa using h

/-- The talent with id 1 of the repository's own test fixtures, abridged
to defaults in the fields the delete path never inspects. -/
def demoTalent1 : Talent :=
  { id := 1, accepted := true, desired_work_roles := [],
    desired_work_roles_experience := [], professional_experience := "1..2",
    work_locations := ["Berlin"], current_location := "Berlin",
    work_authorization := "yes", skills := ["Rust"],
    summary := "", headline := "", contacted_company_ids := [],
    batch_starts_at := "2006", batch_ends_at := "2020",
    added_to_batch_at := "2006", weight := -5, blocked_companies := [],
    work_experiences := [], avatar_url := "", salary_expectations := [],
    latest_position := "", languages := [], educations := [] }

/-- The score of the repository's score test fixture that references
talent 1. -/
def demoScore1 : Score :=
  { request_id := "515ec9bb-0511-4464-92bb-bd21c5ed7b22",
    person_id := some "5801f578-a3bc-40ee-94fd-b437f94f00d5",
    company_id := some "5f97ba87-463c-4531-b35a-f4626a3d8998",
    position_id := some "6214ab8d26e3f79571d922ca269d5749",
    job_id := 1, talent_id := 1, score := (545 / 1000 : ℚ) }

/-- The engine state holding the fixture talent and its score. -/
def demoState : EsState :=
  { talentDocs := [demoTalent1], scoreDocs := [demoScore1] }

/-- C2 (code bug): `Talent::delete` of the source tree deletes only the
talent document — after deleting talent `"1"` from a state holding a
score with `talent_id == 1`, the talent is gone but a `Score` search by
that `talent_id` still finds the score, so the claimed cascade does not
happen. -/
theorem claim_C2_delete_does_not_cascade :
    (Talent.delete demoState "1").talentDocs = [] ∧
    Score.search (Talent.delete demoState "1")
        { job_id := none, talent_id := some 1 } =
      { total := 1, scores := [demoScore1] } :=
  ⟨rfl, rfl⟩

/-- Flattening a nine-element list of lists splits off the last block. -/
theorem flatten_nine (a b c d e f g h v : List Query) :
    List.flatten [a, b, c, d, e, f, g, h, v] =
      List.flatten [a, b, c, d, e, f, g, h] ++ v := by
  simp [List.flatten, List.append_assoc]

/-- C1: the visibility sub-filter `Talent::search_filters` embeds (as the
final block of its `must` compartment) is: with the `epoch` parameter
absent, the conjunction `accepted == true AND batch_starts_at ≤ epoch AND
batch_ends_at ≥ epoch` with `dateOptionalTime` range format; with `epoch`
present, the conjunction `accepted == true AND batch_starts_at == epoch`
as equality terms; and a non-empty `presented_talents` wraps the clause
in a boolean OR (`should`) with a terms-match on id membership in
`presented_talents`. -/
theorem claim_C1_visibility_subfilter (params : ParamsMap) (epoch : String) :
    (∃ pre,
      (Talent.search_filters params epoch).mustOf =
        pre ++ Talent.visibility_filters epoch
          (i32_vec_from_params params "presented_talents")
          ((params.get "epoch").isSome)) ∧
    (∀ presented : List Int, ∀ date_filter_present : Bool,
      Talent.visibility_filters epoch presented date_filter_present =
        (let rules : Query :=
          if date_filter_present then
            .boolQ
              [.term "accepted" (.b true),
               .term "batch_starts_at" (.s epoch)]
              [] []
          else
            .boolQ
              [.term "accepted" (.b true),
               .range "batch_starts_at" (some epoch) none
                 (some "dateOptionalTime"),
               .range "batch_ends_at" none (some epoch)
                 (some "dateOptionalTime")]
              [] []
        if presented.isEmpty then [rules]
        else
          [.boolQ []
            [rules, .boolQ [.terms "ids" (presented.map .i)] [] []]
            []])) := by
  constructor
  · exact ⟨_, flatten_nine _ _ _ _ _ _ _ _ _⟩
  · intro presented date_filter_present
    cases hp : presented.isEmpty <;>
      cases date_filter_present <;>
        simp [Talent.visibility_filters, build_terms_i32, hp]

/-- C7: `Talent::search` issues the engine query with `min_score = 0.56`,
`track_scores = true`, highlighting enabled and no explicit sort exactly
when the `keywords` parameter is a non-empty string; otherwise it issues
the query sorted by `batch_starts_at`, `weight` and `added_to_batch_at`,
all descending, each with an `unmapped_type` fallback. -/
theorem claim_C7_search_modes (params : ParamsMap)
    (default_index now : String) :
    (Talent.keywordsPresent params = true ↔
      ∃ keywords,
        params.get "keywords" = some (.str keywords) ∧ keywords ≠ "") ∧
    (Talent.keywordsPresent params = true →
      (Talent.searchRequest params default_index now).minScore =
          some (56 / 100 : ℚ) ∧
      (Talent.searchRequest params default_index now).trackScores = true ∧
      (Talent.searchRequest params default_index now).highlight =
          some (Talent.buildHighlight params) ∧
      (Talent.searchRequest params default_index now).sort = none) ∧
    (Talent.keywordsPresent params = false →
      (Talent.searchRequest params default_index now).sort =
          some
            [{ field := "batch_starts_at", order := "desc",
               unmappedType := some "date" },
             { field := "weight", order := "desc",
               unmappedType := some "integer" },
             { field := "added_to_batch_at", order := "desc",
               unmappedType := some "date" }] ∧
      (Talent.searchRequest params default_index now).minScore = none ∧
      (Talent.searchRequest params default_index now).trackScores = false ∧
      (Talent.searchRequest params default_index now).highlight = none) := by
  refine ⟨?_, ?_, ?_⟩
  · unfold Talent.keywordsPresent
    cases hk : params.get "keywords" with
    | none => simp
    | some v =>
      cases v with
      | str s => simp [String.isEmpty_iff]
      | u64 v => simp
      | i64 v => simp
      | boolean v => simp
      | null => simp
      | arr vs => simp
  · intro h
    unfold Talent.searchRequest
    rw [h]
    exact ⟨rfl, rfl, rfl, rfl⟩
  · intro h
    unfold Talent.searchRequest
    rw [h]
    exact ⟨rfl, rfl, rfl, rfl⟩

/-- C7 witness: the two modes at the concrete maps `{keywords ↦ "C#"}`
and `{}`. -/
theorem claim_C7_witness :
    (Talent.searchRequest [("keywords", PValue.str "C#")] "talents" "now").sort
        = none ∧
    (Talent.searchRequest ([] : ParamsMap) "talents" "now").minScore = none :=
  ⟨((claim_C7_search_modes [("keywords", PValue.str "C#")] "talents"
      "now").2.1 rfl).2.2.2,
   ((claim_C7_search_modes ([] : ParamsMap) "talents" "now").2.2 rfl).2.1⟩

/-- The `filter` compartment of the spec-modelled planner is the
desired-role OR group followed by the salary clauses. -/
theorem plannerTree_filter (params : ParamsMap) (epoch : String) :
    (plannerTree params epoch).filter =
      desiredRoleGroup params ++ salaryFilters params := rfl

/-- C4 (spec-modelled): with `maximum_salary` parsing as a non-negative
integer, the planner's non-scoring `filter` compartment contains a nested
`salary_expectations.minimum ≤ maximum_salary` clause when
`work_locations` is empty, and otherwise the boolean OR of one nested
`(minimum ≤ maximum_salary AND city == location)` clause per location. -/
theorem claim_C4_salary_filter (params : ParamsMap) (epoch : String)
    (maximum_salary : Nat)
    (hmax : (params.get "maximum_salary").bind u64FromValue =
      some maximum_salary) :
    (vec_from_params params "work_locations" = [] →
      Query.nested "salary_expectations"
          (.rangeLeNat "salary_expectations.minimum" maximum_salary) ∈
        (plannerTree params epoch).filter) ∧
    (vec_from_params params "work_locations" ≠ [] →
      Query.boolQ []
          ((vec_from_params params "work_locations").map (fun location =>
            .nested "salary_expectations"
              (.boolQ
                [.rangeLeNat "salary_expectations.minimum" maximum_salary,
                 .term "salary_expectations.city" (.s location)]
                [] [])))
          [] ∈
        (plannerTree params epoch).filter) := by
  constructor
  · intro hloc
    rw [plannerTree_filter]
    refine List.mem_append_right _ ?_
    unfold salaryFilters
    rw [hmax]
    simp [hloc]
  · intro hloc
    rw [plannerTree_filter]
    refine List.mem_append_right _ ?_
    unfold salaryFilters
    rw [hmax]
    simp [List.isEmpty_iff, hloc]

/-- C4 witness: `{maximum_salary ↦ "30000", work_locations ↦ ["Berlin"]}`
puts the location-scoped nested OR into the filter compartment. -/
theorem claim_C4_witness :
    Query.boolQ []
        [.nested "salary_expectations"
          (.boolQ
            [.rangeLeNat "salary_expectations.minimum" 30000,
             .term "salary_expectations.city" (.s "Berlin")]
            [] [])]
        [] ∈
      (plannerTree
        [("maximum_salary", PValue.str "30000"),
         ("work_locations", PValue.arr [PValue.str "Berlin"])] "now").filter := by
  have h :=
    (claim_C4_salary_filter
      [("maximum_salary", PValue.str "30000"),
       ("work_locations", PValue.arr [PValue.str "Berlin"])] "now"
      30000 rfl).2 (by decide)
  simpa using h

/-- C5 (spec-modelled): the clauses of the `desired_work_roles[]` items
are ORred into one sub-clause group that lives in the planner's
non-scoring `filter` compartment, and each item's clause is one of that
group's disjuncts; an item `role:min` is translated into the boolean OR
of one nested `(role == R AND experience == band)` clause per band of
the fixed "at least `min` years" ladder; an item with no minimum yields
a plain term on `desired_work_roles.raw`. -/
theorem claim_C5_desired_role_filter (params : ParamsMap) (epoch : String)
    (item : String)
    (hitem : item ∈ vec_from_params params "desired_work_roles") :
    Query.boolQ []
        ((vec_from_params params "desired_work_roles").map desiredRoleClause)
        [] ∈
      (plannerTree params epoch).filter ∧
    desiredRoleClause item ∈
      (vec_from_params params "desired_work_roles").map desiredRoleClause ∧
    (∀ role minYears maxYears,
      parseRoleItem item = (role, some minYears, maxYears) →
      desiredRoleClause item =
        .boolQ []
          ((atLeastBands minYears).map (fun band =>
            .nested "desired_roles"
              (.boolQ
                [.term "desired_roles.role" (.s role),
                 .term "desired_roles.experience" (.s band)]
                [] [])))
          []) ∧
    (∀ role maxYears,
      parseRoleItem item = (role, none, maxYears) →
      desiredRoleClause item = .term "desired_work_roles.raw" (.s role)) := by
  refine ⟨?_, ?_, ?_, ?_⟩
  · rw [plannerTree_filter]
    refine List.mem_append_left _ ?_
    have hne : vec_from_params params "desired_work_roles" ≠ [] :=
      List.ne_nil_of_mem hitem
    simp [desiredRoleGroup, List.isEmpty_iff, hne]
  · exact List.mem_map_of_mem _ hitem
  · intro role minYears maxYears hp
    unfold desiredRoleClause
    rw [hp]
  · intro role maxYears hp
    unfold desiredRoleClause
    rw [hp]

/-- C5 witness: for `{desired_work_roles ↦ ["Fullstack:2", "DevOps:0"]}`
(the smoke test's OR-filter scenario) the single OR group over both item
clauses sits in the filter compartment, and `"Fullstack:2"` becomes the
OR over the five "at least 2 years" bands. -/
theorem claim_C5_witness :
    Query.boolQ []
        [desiredRoleClause "Fullstack:2", desiredRoleClause "DevOps:0"]
        [] ∈
      (plannerTree
        [("desired_work_roles",
          PValue.arr [PValue.str "Fullstack:2", PValue.str "DevOps:0"])]
        "now").filter ∧
    desiredRoleClause "Fullstack:2" =
      .boolQ []
        ((["1..2", "2..4", "4..6", "6..8", "8+"] : List String).map (fun band =>
          .nested "desired_roles"
            (.boolQ
              [.term "desired_roles.role" (.s "Fullstack"),
               .term "desired_roles.experience" (.s band)]
              [] [])))
        [] := by
  have h :=
    claim_C5_desired_role_filter
      [("desired_work_roles",
        PValue.arr [PValue.str "Fullstack:2", PValue.str "DevOps:0"])] "now"
      "Fullstack:2" (by decide)
  exact ⟨h.1, h.2.2.1 "Fullstack" 2 none rfl⟩

/-- C6 (spec-modelled): a non-empty keyword clause lands in the planner's
`must` (AND) compartment by default, and in the `should` (OR) compartment
instead when the `features[]` list contains `keywords_should`. -/
theorem claim_C6_keyword_placement (params : ParamsMap) (epoch : String)
    (keywordsQuery : Query)
    (hkw : Talent.full_text_search params = some keywordsQuery) :
    ((vec_from_params params "features").contains "keywords_should"
        = false →
      (plannerTree params epoch).must =
        keywordsQuery :: plannerMustRest params epoch ∧
      (plannerTree params epoch).should = []) ∧
    ((vec_from_params params "features").contains "keywords_should"
        = true →
      (plannerTree params epoch).must = plannerMustRest params epoch ∧
      (plannerTree params epoch).should = [keywordsQuery]) := by
  constructor <;> intro hf
  · have hmem : "keywords_should" ∉ vec_from_params params "features" := by
      simpa using hf
    constructor <;> simp [plannerTree, hkw, hmem]
  · have hmem : "keywords_should" ∈ vec_from_params params "features" := by
      simpa using hf
    constructor <;> simp [plannerTree, hkw, hmem]

/-- C6 witness: with `{keywords ↦ "Rust", features ↦ ["keywords_should"]}`
the keyword clause is the whole `should` compartment. -/
theorem claim_C6_witness :
    (plannerTree
        [("keywords", PValue.str "Rust"),
         ("features", PValue.arr [PValue.str "keywords_should"])]
        "now").should =
      [.queryString "Rust"
        ["skills", "summary", "headline", "desired_work_roles",
         "work_experiences", "educations"]] := by
  have h :=
    (claim_C6_keyword_placement
      [("keywords", PValue.str "Rust"),
       ("features", PValue.arr [PValue.str "keywords_should"])]
      "now"
      (.queryString "Rust"
        ["skills", "summary", "headline", "desired_work_roles",
         "work_experiences", "educations"])
      rfl).2 rfl
  exact h.2

end Searchspot
